import Mathlib

/-!
Shallow embedding of `vassis.py` (configuration management and the
natural-language `TimeParser`) and proofs about the spec's claims.

Modelling conventions:
* A Python naive `datetime` is modelled as an `Int`: microseconds since the
  epoch 1970-01-01T00:00:00 (day 0 of the epoch is a Thursday).  `.date()`
  is floor division by the microseconds of one day, `.weekday()` follows
  Python's Monday = 0 convention.
* A Python `timedelta` is modelled as an `Int` of microseconds.  (Python's
  `timedelta` is bounded at ~±2.7e6 days; the bound is not modelled.)
* Fallible Python code returns `Except PyErr _`: a `.error` value models an
  exception propagating out of the modelled expression.
* The third-party fuzzy interpreter `dateutil.parser.parse` is not part of
  this repository; `TimeParser.parse` is parameterised by an abstract
  oracle `Fuzzy` standing for it (`.ok` = it returned a datetime,
  `.error` = it raised one of the exception classes the caller catches).
* Strings are processed as `List Char`; `str.lower` is modelled for the
  ASCII letters, which covers every pattern in the source.
-/

/-- Python exception classes that appear in `vassis.py`. -/
inductive PyErr where
  | typeError
  | valueError
deriving DecidableEq, Repr

/-- ASCII lower-casing of one character, as `str.lower` acts on ASCII. -/
def lowerCh (c : Char) : Char :=
  if 65 ≤ c.toNat ∧ c.toNat ≤ 90 then Char.ofNat (c.toNat + 32) else c

/-- Python `str.strip` whitespace (ASCII part of `\s`). -/
def isSpaceCh (c : Char) : Bool :=
  c = ' ' || c = '\t' || c = '\n' || c = '\r' || c.toNat = 11 || c.toNat = 12

/-- `c` is an ASCII digit (`\d` over the inputs considered). -/
def isDigitCh (c : Char) : Bool :=
  '0' ≤ c && c ≤ '9'

/-- `w` is a prefix of `s`. -/
def listStartsWith : List Char → List Char → Bool
  | [], _ => true
  | _ :: _, [] => false
  | p :: ps, c :: cs => p = c && listStartsWith ps cs

/-- `re.search`-style scan: does `f` hold at some suffix (match position)? -/
def anyPosition (f : List Char → Bool) : List Char → Bool
  | [] => f []
  | c :: cs => f (c :: cs) || anyPosition f cs

/-- Python `pattern in string` / substring search for a literal pattern. -/
def isSubstring (w s : List Char) : Bool :=
  anyPosition (listStartsWith w) s

/-- Maximal digit prefix (greedy `\d+`) and the remaining characters. -/
def takeDigits : List Char → List Char × List Char
  | [] => ([], [])
  | c :: cs =>
    if isDigitCh c then
      let (ds, r) := takeDigits cs
      (c :: ds, r)
    else ([], c :: cs)

/-- Drop leading whitespace (greedy `\s*`). -/
def dropSpaces : List Char → List Char
  | [] => []
  | c :: cs => if isSpaceCh c then dropSpaces cs else c :: cs

/-- Numeric value of a digit string, as Python `int` on a digit capture. -/
def natOfDigits (ds : List Char) : Nat :=
  ds.foldl (fun a c => 10 * a + (c.toNat - 48)) 0

/-- `str.lower().strip()`, the normalisation at the top of `parse`. -/
def normalizeChars (cs : List Char) : List Char :=
  ((((cs.map lowerCh).dropWhile fun c => isSpaceCh c).reverse.dropWhile
      fun c => isSpaceCh c).reverse)

/-! ## Configuration (`AssistantConfig`) -/

/-- A value that can appear in the configuration dictionary. -/
inductive ConfigValue where
  | s (v : String)
  | b (v : Bool)
  | q (v : Rat)
  | i (v : Int)
deriving DecidableEq, Repr

/-- The `AssistantConfig` dataclass.  The source declares `enable_learning`
twice (as a learning setting and again as a feature flag); in Python's
dataclass the second declaration wins and there is a single field, as here. -/
structure AssistantConfig where
  name : String := "Assistant"
  voice_name : String := "en-US-JennyNeural"
  language : String := "en"
  use_voice : Bool := false
  use_gpu : Bool := false
  confidence_threshold : Rat := 7 / 10
  enable_learning : Bool := true
  min_feedback_count : Int := 3
  data_dir : String := "data"
  models_dir : String := "models"
  weather_api_key : String := ""
  search_api_key : String := ""
  enable_reminders : Bool := true
  enable_calendar : Bool := true
  enable_weather : Bool := true
deriving DecidableEq, Repr

namespace AssistantConfig

/-- `save_to_file`: the `config_dict` handed to `yaml.dump`, i.e. exactly the
key/value pairs written to the settings file, in the source's order. -/
def save_to_file (c : AssistantConfig) : List (String × ConfigValue) :=
  [ ("name", ConfigValue.s c.name),
    ("voice_name", ConfigValue.s c.voice_name),
    ("language", ConfigValue.s c.language),
    ("use_voice", ConfigValue.b c.use_voice),
    ("use_gpu", ConfigValue.b c.use_gpu),
    ("confidence_threshold", ConfigValue.q c.confidence_threshold),
    ("enable_learning", ConfigValue.b c.enable_learning),
    ("data_dir", ConfigValue.s c.data_dir),
    ("models_dir", ConfigValue.s c.models_dir),
    ("enable_reminders", ConfigValue.b c.enable_reminders),
    ("enable_calendar", ConfigValue.b c.enable_calendar),
    ("enable_weather", ConfigValue.b c.enable_weather) ]

end AssistantConfig

/-! ## Time model -/

def usPerSecond : Int := 1000000
def usPerMinute : Int := 60000000
def usPerHour : Int := 3600000000
def usPerDay : Int := 86400000000
def usPerWeek : Int := 604800000000

/-- `.date()` of a datetime, as an epoch day number (floor division). -/
def pyDate (t : Int) : Int := t / usPerDay

/-- `.weekday()`: Monday = 0 … Sunday = 6.  Epoch day 0 is a Thursday. -/
def pyWeekday (t : Int) : Int := (pyDate t + 3) % 7

/-- `int(str)` on a capture: succeeds on digit strings, otherwise raises
`ValueError` (as `int("pm")` does). -/
def pyInt (cs : List Char) : Except PyErr Int :=
  if cs ≠ [] ∧ cs.all isDigitCh then Except.ok (natOfDigits cs : Int)
  else Except.error PyErr.valueError

/-! ## `TimeParser` -/

namespace TimeParser

/-- The abstract fuzzy interpreter standing for
`dateutil.parser.parse(s, fuzzy=True, default=ref)`: given the normalised
text and the reference instant it either returns a datetime or raises
(every exception class it raises is caught by the caller's
`except (ValueError, TypeError)` clause). -/
def Fuzzy : Type := List Char → Int → Except PyErr Int

/-- The argument actually passed to `timedelta(...)` in the
`relative_patterns` list: the source writes `timedelta(minutes=int)`,
passing the builtin class `int` itself instead of a number. -/
inductive TdArg where
  | intVal (n : Int)
  | intType
deriving DecidableEq, Repr

/-- `timedelta(<unit>=arg)` for one unit of `unitUs` microseconds: raises
`TypeError` unless the argument is a number. -/
def mkTimedelta (unitUs : Int) : TdArg → Except PyErr Int
  | TdArg.intVal n => Except.ok (n * unitUs)
  | TdArg.intType => Except.error PyErr.typeError

/-- A compiled relative pattern: `in (\d+) <unit>s?` or a bare keyword. -/
inductive RelPat where
  | inNum (unit : List Char)
  | lit (w : List Char)
deriving DecidableEq, Repr

/-- The second component of a `relative_patterns` entry: either a plain
`timedelta` value (which is not callable) or a zero-argument lambda. -/
inductive DeltaFunc where
  | tdval (d : Int)
  | thunk (d : Int)
deriving DecidableEq, Repr

/-- The `relative_patterns` list literal inside `parse`.  Evaluating it
evaluates `timedelta(minutes=int)`, `timedelta(hours=int)`,
`timedelta(days=int)` and `timedelta(weeks=int)`, each applied to the
builtin class `int`; the first of these raises `TypeError`, so the whole
list construction raises. -/
def relative_patterns : Except PyErr (List (RelPat × DeltaFunc)) := do
  let d1 ← mkTimedelta usPerMinute TdArg.intType
  let d2 ← mkTimedelta usPerHour TdArg.intType
  let d3 ← mkTimedelta usPerDay TdArg.intType
  let d4 ← mkTimedelta usPerWeek TdArg.intType
  Except.ok
    [ (RelPat.inNum "minute".data, DeltaFunc.tdval d1),
      (RelPat.inNum "hour".data, DeltaFunc.tdval d2),
      (RelPat.inNum "day".data, DeltaFunc.tdval d3),
      (RelPat.inNum "week".data, DeltaFunc.tdval d4),
      (RelPat.lit "tomorrow".data, DeltaFunc.thunk usPerDay),
      (RelPat.lit "today".data, DeltaFunc.thunk 0) ]

/-- `re.search(r'in (\d+) <unit>s?', s)` anchored at the current position:
literal `in `, one or more digits, a space, then the unit word (the
trailing optional `s` cannot affect whether a match exists). -/
def inNumHere (unit : List Char) : List Char → Bool
  | 'i' :: 'n' :: ' ' :: rest =>
    (let (ds, tail) := takeDigits rest
     decide (ds ≠ []) &&
       match tail with
       | ' ' :: t2 => listStartsWith unit t2
       | _ => false)
  | _ => false

/-- Whether one relative pattern matches anywhere in the string. -/
def relPatMatches (p : RelPat) (s : List Char) : Bool :=
  match p with
  | RelPat.inNum u => anyPosition (inNumHere u) s
  | RelPat.lit w => isSubstring w s

/-- `if callable(delta_func): delta = delta_func() else: delta = delta_func(match)`:
a lambda is callable; a `timedelta` value is not, so calling it with the
match object raises `TypeError`. -/
def applyDeltaFunc : DeltaFunc → Except PyErr Int
  | DeltaFunc.thunk d => Except.ok d
  | DeltaFunc.tdval _ => Except.error PyErr.typeError

/-- The `for pattern, delta_func in relative_patterns` loop: the first
matching pattern resolves its delta and returns `reference + delta`;
`.ok none` means no pattern matched and control continues below. -/
def runRelLoop (ref : Int) (s : List Char) :
    List (RelPat × DeltaFunc) → Except PyErr (Option Int)
  | [] => Except.ok none
  | (p, f) :: rest =>
    if relPatMatches p s then
      match applyDeltaFunc f with
      | Except.ok d => Except.ok (some (ref + d))
      | Except.error e => Except.error e
    else runRelLoop ref s rest

/-- Grab exactly `n` digits (for `\d{2}` and the backtracking of `\d{1,2}`). -/
def grabDigits : Nat → List Char → Option (List Char × List Char)
  | 0, s => some ([], s)
  | _ + 1, [] => none
  | n + 1, c :: cs =>
    if isDigitCh c then
      match grabDigits n cs with
      | some (ds, r) => some (c :: ds, r)
      | none => none
    else none

/-- One attempt of `(\d{1,2}):(\d{2})\s*(am|pm)?` anchored at the current
position, with the hour trying `k` digits (regex `\d{1,2}` greedily tries
two digits, then backtracks to one).  Returns the three captures. -/
def tryColonPat (k : Nat) (s : List Char) :
    Option (List Char × List Char × Option (List Char)) :=
  match grabDigits k s with
  | some (h, ':' :: r2) =>
    match grabDigits 2 r2 with
    | some (m, r3) =>
      let t := dropSpaces r3
      if listStartsWith "am".data t then some (h, m, some "am".data)
      else if listStartsWith "pm".data t then some (h, m, some "pm".data)
      else some (h, m, none)
    | none => none
  | _ => none

/-- `(\d{1,2}):(\d{2})\s*(am|pm)?` at the current position. -/
def colonPatHere (s : List Char) :
    Option (List Char × List Char × Option (List Char)) :=
  match tryColonPat 2 s with
  | some r => some r
  | none => tryColonPat 1 s

/-- One attempt of `(\d{1,2})\s*(am|pm)` with the hour trying `k` digits. -/
def tryBarePat (k : Nat) (s : List Char) : Option (List Char × List Char) :=
  match grabDigits k s with
  | some (h, r) =>
    let t := dropSpaces r
    if listStartsWith "am".data t then some (h, "am".data)
    else if listStartsWith "pm".data t then some (h, "pm".data)
    else none
  | none => none

/-- `(\d{1,2})\s*(am|pm)` at the current position. -/
def barePatHere (s : List Char) : Option (List Char × List Char) :=
  match tryBarePat 2 s with
  | some r => some r
  | none => tryBarePat 1 s

/-- `re.search`: first match position, scanning left to right. -/
def firstHit {α : Type} (f : List Char → Option α) : List Char → Option α
  | [] => f []
  | c :: cs =>
    match f (c :: cs) with
    | some x => some x
    | none => firstHit f cs

/-- `datetime.replace(hour=h, minute=m, second=0, microsecond=0)`:
out-of-range fields raise `ValueError`, which the time-pattern branch
catches with `continue`; `none` models that non-match. -/
def pyReplaceTime (ref h m : Int) : Option Int :=
  if 0 ≤ h ∧ h ≤ 23 ∧ 0 ≤ m ∧ m ≤ 59 then
    some (pyDate ref * usPerDay + h * usPerHour + m * usPerMinute)
  else none

/-- The `try:` body of one time-pattern iteration: `hour = int(g1)`,
`minute = int(g2)` (for the bare pattern `g2` is the captured `am`/`pm`
string, so `int` raises `ValueError`, caught as `continue`), the am/pm
adjustment, then `replace`.  `none` models a caught `ValueError`. -/
def attemptTime (ref : Int) (g1 g2 : List Char) (g3 : Option (List Char)) :
    Option Int :=
  match pyInt g1, pyInt g2 with
  | Except.ok h, Except.ok m =>
    let h2 : Int :=
      match g3 with
      | some ap =>
        if ap = "pm".data ∧ h ≠ 12 then h + 12
        else if ap = "am".data ∧ h = 12 then 0
        else h
      | none => h
    pyReplaceTime ref h2 m
  | _, _ => none

/-- The `for pattern, _ in time_patterns` loop over the two time-of-day
patterns; a caught `ValueError` falls through to the next pattern. -/
def timeStage (ref : Int) (s : List Char) : Option Int :=
  let first :=
    match firstHit colonPatHere s with
    | some (g1, g2, g3) => attemptTime ref g1 g2 g3
    | none => none
  match first with
  | some dt => some dt
  | none =>
    match firstHit barePatHere s with
    | some (g1, ap) => attemptTime ref g1 ap none
    | none => none

/-- The `days_of_week` dict in its insertion order. -/
def days_of_week : List (List Char × Int) :=
  [ ("monday".data, 0), ("tuesday".data, 1), ("wednesday".data, 2),
    ("thursday".data, 3), ("friday".data, 4), ("saturday".data, 5),
    ("sunday".data, 6) ]

/-- The `for day_name, day_num in days_of_week.items()` loop: first weekday
name contained in the text wins; roll the offset forward by 7 when it is
zero or negative. -/
def weekdayStage (ref : Int) (s : List Char) : Option Int :=
  match days_of_week.find? fun p => isSubstring p.1 s with
  | some (_, dayNum) =>
    let daysAhead := dayNum - pyWeekday ref
    let daysAhead := if daysAhead ≤ 0 then daysAhead + 7 else daysAhead
    some (ref + daysAhead * usPerDay)
  | none => none

/-- Everything in `parse` after the fuzzy step: build `relative_patterns`
(which raises), then the relative loop, the time-of-day loop, the weekday
scan, and finally `return None`. -/
def parseFallback (ref : Int) (s : List Char) : Except PyErr (Option Int) :=
  match relative_patterns with
  | Except.error e => Except.error e
  | Except.ok pats =>
    match runRelLoop ref s pats with
    | Except.error e => Except.error e
    | Except.ok (some dt) => Except.ok (some dt)
    | Except.ok none =>
      match timeStage ref s with
      | some dt => Except.ok (some dt)
      | none =>
        match weekdayStage ref s with
        | some dt => Except.ok (some dt)
        | none => Except.ok none

/-- `parse` on the already-normalised text: the fuzzy attempt with its
acceptance test `parsed > reference_time or parsed.date() >= reference_time.date()`,
a caught fuzzy exception falling through to the pattern strategies. -/
def parseCore (fuzzy : Fuzzy) (s : List Char) (ref : Int) :
    Except PyErr (Option Int) :=
  match fuzzy s ref with
  | Except.ok parsed =>
    if parsed > ref ∨ pyDate parsed ≥ pyDate ref then Except.ok (some parsed)
    else parseFallback ref s
  | Except.error _ => parseFallback ref s

/-- `TimeParser.parse(time_string, reference_time)`.  The reference instant
is explicit (the source defaults it to `datetime.now()`). -/
def parse (fuzzy : Fuzzy) (time_string : String) (reference_time : Int) :
    Except PyErr (Option Int) :=
  parseCore fuzzy (normalizeChars time_string.data) reference_time

/-- `re.search(r'(\d+)\s*(?:<units>)', s)` for one duration pattern,
returning `int(match.group(1))`.  Each alternation is equivalent to a
prefix test: `(?:hours?|hrs?)` matches at a position iff the text starts
with `hour` or `hr`; `(?:minutes?|mins?)` iff it starts with `min` (since
`minute` extends `min`); `(?:seconds?|secs?)` iff `sec`; `(?:days?)` iff
`day`. -/
def searchNumUnit (units : List (List Char)) : List Char → Option Nat
  | [] => none
  | c :: cs =>
    if isDigitCh c then
      let (ds, tail) := takeDigits (c :: cs)
      if units.any fun u => listStartsWith u (dropSpaces tail) then
        some (natOfDigits ds)
      else searchNumUnit units cs
    else searchNumUnit units cs

/-- The `patterns` list of `parse_duration`, in source order, with each
pattern's unit in microseconds. -/
def duration_patterns : List (List (List Char) × Int) :=
  [ (["hour".data, "hr".data], usPerHour),
    (["min".data], usPerMinute),
    (["sec".data], usPerSecond),
    (["day".data], usPerDay) ]

/-- `TimeParser.parse_duration`: lower-case, scan the four unit patterns in
order accumulating `total_delta`, return `None` iff the total is zero. -/
def parse_duration (duration_string : String) : Option Int :=
  let cs := duration_string.data.map lowerCh
  let total := duration_patterns.foldl
    (fun acc p =>
      match searchNumUnit p.1 cs with
      | some n => acc + (n : Int) * p.2
      | none => acc) 0
  if total = 0 then none else some total

/-- Modelled from the spec: the source file breaks off inside
`format_relative` right after the `seconds < 3600` test, so the buckets
from one minute upwards are reconstructed from the spec's "under 1 hour →
minutes-based phrase; (further buckets for hours/days follow the same
escalating-granularity pattern …)". -/
def format_relative_rest (diffUs : Int) : String :=
  if diffUs < usPerHour then "in " ++ toString (diffUs / usPerMinute) ++ " minutes"
  else if diffUs < usPerDay then "in " ++ toString (diffUs / usPerHour) ++ " hours"
  else "in " ++ toString (diffUs / usPerDay) ++ " days"

/-- `TimeParser.format_relative(dt)` with the wall clock `datetime.now()`
made an explicit argument.  `diff.total_seconds() < 0` iff the microsecond
difference is negative, and `seconds < 60` iff it is below 60 seconds (the
float division by 1e6 cannot cross those boundaries for integral
microsecond values). -/
def format_relative (dt now : Int) : String :=
  let diffUs := dt - now
  if diffUs < 0 then "in the past"
  else if diffUs < 60 * usPerSecond then "in a few seconds"
  else format_relative_rest diffUs

end TimeParser

/-! ## Helper lemmas -/

open TimeParser

/-- Floor division by the length of a day is monotone, so a later instant
never has an earlier calendar date. -/
theorem pyDate_mono {a b : Int} (h : a ≤ b) : pyDate a ≤ pyDate b := by
  unfold pyDate
  exact Int.ediv_le_ediv (by decide) h

/-- Building the `relative_patterns` list raises `TypeError`: its first
entry evaluates `timedelta(minutes=int)`. -/
theorem relative_patterns_raises :
    relative_patterns = Except.error PyErr.typeError := rfl

/-- Consequently everything after the fuzzy step raises `TypeError`,
whatever the text and reference instant are. -/
theorem parseFallback_raises (ref : Int) (s : List Char) :
    parseFallback ref s = Except.error PyErr.typeError := rfl

/-- If the fuzzy interpreter raises, `parse` raises `TypeError`. -/
theorem parseCore_fuzzy_error (fuzzy : Fuzzy) (s : List Char) (ref : Int)
    (e : PyErr) (h : fuzzy s ref = Except.error e) :
    parseCore fuzzy s ref = Except.error PyErr.typeError := by
  unfold parseCore
  rw [h]
  exact parseFallback_raises ref s

/-- If the fuzzy interpreter returns an accepted result, `parse` returns it. -/
theorem parseCore_fuzzy_accept (fuzzy : Fuzzy) (s : List Char) (ref parsed : Int)
    (h : fuzzy s ref = Except.ok parsed)
    (hacc : parsed > ref ∨ pyDate parsed ≥ pyDate ref) :
    parseCore fuzzy s ref = Except.ok (some parsed) := by
  unfold parseCore
  rw [h]
  show (if parsed > ref ∨ pyDate parsed ≥ pyDate ref then Except.ok (some parsed)
        else parseFallback ref s) = Except.ok (some parsed)
  rw [if_pos hacc]

/-- If the fuzzy result resolves to a strictly earlier calendar date, it is
rejected and control falls through to the pattern strategies. -/
theorem parseCore_fuzzy_reject (fuzzy : Fuzzy) (s : List Char) (ref parsed : Int)
    (h : fuzzy s ref = Except.ok parsed)
    (hrej : pyDate parsed < pyDate ref) :
    parseCore fuzzy s ref = parseFallback ref s := by
  have hc : ¬(parsed > ref ∨ pyDate parsed ≥ pyDate ref) := by
    rintro (hgt | hge)
    · exact absurd (pyDate_mono hgt.le) (not_le.mpr hrej)
    · exact absurd hge (not_le.mpr hrej)
  unfold parseCore
  rw [h]
  show (if parsed > ref ∨ pyDate parsed ≥ pyDate ref then Except.ok (some parsed)
        else parseFallback ref s) = parseFallback ref s
  rw [if_neg hc]

/-- One pass of the `parse_duration` loop body adds the pattern's
contribution to the accumulator. -/
def durContr (units : List (List Char)) (unitUs : Int) (cs : List Char) : Int :=
  match searchNumUnit units cs with
  | some n => (n : Int) * unitUs
  | none => 0

theorem durFoldStep (acc : Int) (units : List (List Char)) (u : Int)
    (cs : List Char) :
    (match searchNumUnit units cs with
     | some n => acc + (n : Int) * u
     | none => acc) = acc + durContr units u cs := by
  unfold durContr
  cases searchNumUnit units cs <;> simp

/-- The total of the four independent unit scans of `parse_duration`. -/
def durTotal (s : String) : Int :=
  durContr ["hour".data, "hr".data] usPerHour (s.data.map lowerCh)
    + durContr ["min".data] usPerMinute (s.data.map lowerCh)
    + durContr ["sec".data] usPerSecond (s.data.map lowerCh)
    + durContr ["day".data] usPerDay (s.data.map lowerCh)

theorem parse_duration_total (s : String) :
    parse_duration s = if durTotal s = 0 then none else some (durTotal s) := by
  unfold parse_duration duration_patterns durTotal
  simp only [List.foldl, durFoldStep]
  simp only [zero_add]

/-- A fuzzy oracle that always raises (as `dateutil` does on text without
any recognisable date token). -/
def fuzzyAlwaysRaises : Fuzzy := fun _ _ => Except.error PyErr.valueError

/-- A fuzzy oracle that returns the reference instant itself (as `dateutil`
does when every parsed field coincides with the default). -/
def fuzzyReturnsRef : Fuzzy := fun _ ref => Except.ok ref

/-- A fuzzy oracle returning the fixed instant 5 µs after the epoch. -/
def fuzzyReturnsFive : Fuzzy := fun _ _ => Except.ok 5

/-! ## Claims -/

/-- C1: the spec says `parse` never raises and only ever signals failure
through the `None` sentinel, with `parse("gibberish xyz", ref)` returning
`None`.  The code violates this: whenever the fuzzy interpreter raises one
of the caught exception classes (as it does on "gibberish xyz"), control
reaches the `relative_patterns` list literal, whose entry
`timedelta(minutes=int)` raises `TypeError`, which propagates to the
caller instead of `None`. -/
theorem parse_raises_on_fuzzy_failure (fuzzy : Fuzzy) (s : String) (ref : Int)
    (e : PyErr) (h : fuzzy (normalizeChars s.data) ref = Except.error e) :
    parse fuzzy s ref = Except.error PyErr.typeError ∧
    parse fuzzy s ref ≠ Except.ok none := by
  have h1 : parse fuzzy s ref = Except.error PyErr.typeError :=
    parseCore_fuzzy_error fuzzy (normalizeChars s.data) ref e h
  exact ⟨h1, by rw [h1]; simp⟩

theorem parse_raises_on_fuzzy_failure_w :
    parse fuzzyAlwaysRaises "gibberish xyz" 0 = Except.error PyErr.typeError ∧
    parse fuzzyAlwaysRaises "gibberish xyz" 0 ≠ Except.ok none :=
  parse_raises_on_fuzzy_failure fuzzyAlwaysRaises "gibberish xyz" 0
    PyErr.valueError rfl

/-- C2: the spec says `parse("in N <unit>", ref)` returns `ref + N*unit`.
The code cannot: when the fuzzy step does not accept an interpretation of
"in 5 minutes", evaluation of the `relative_patterns` list raises
`TypeError` before any relative pattern is tried, so the call raises
instead of returning `ref + 5 minutes`.  (Even if the list evaluated, its
numeric entries hold `timedelta` values, which the loop would then call as
functions — another `TypeError` — and the abbreviated spellings
`mins`/`hrs` appear only in the unused class-level `TIME_PATTERNS`.) -/
theorem parse_in_n_unit_raises (fuzzy : Fuzzy) (ref : Int) (e : PyErr)
    (h : fuzzy (normalizeChars "in 5 minutes".data) ref = Except.error e) :
    parse fuzzy "in 5 minutes" ref = Except.error PyErr.typeError ∧
    parse fuzzy "in 5 minutes" ref ≠ Except.ok (some (ref + 5 * usPerMinute)) := by
  have h1 : parse fuzzy "in 5 minutes" ref = Except.error PyErr.typeError :=
    parseCore_fuzzy_error fuzzy (normalizeChars "in 5 minutes".data) ref e h
  exact ⟨h1, by rw [h1]; simp⟩

theorem parse_in_n_unit_raises_w :
    parse fuzzyAlwaysRaises "in 5 minutes" 0 = Except.error PyErr.typeError ∧
    parse fuzzyAlwaysRaises "in 5 minutes" 0 ≠
      Except.ok (some (0 + 5 * usPerMinute)) :=
  parse_in_n_unit_raises fuzzyAlwaysRaises 0 PyErr.valueError rfl

/-- C3: the spec says `parse("today", ref) = ref` and
`parse("tomorrow", ref) = ref + 1 day`.  The fuzzy interpreter does not
understand either keyword, and once it raises, the `relative_patterns`
construction raises `TypeError` before the `today`/`tomorrow` entries
(which sit at the end of that very list) can match. -/
theorem parse_today_tomorrow_raise (fuzzy : Fuzzy) (ref : Int) (e1 e2 : PyErr)
    (h1 : fuzzy (normalizeChars "today".data) ref = Except.error e1)
    (h2 : fuzzy (normalizeChars "tomorrow".data) ref = Except.error e2) :
    (parse fuzzy "today" ref = Except.error PyErr.typeError ∧
      parse fuzzy "today" ref ≠ Except.ok (some ref)) ∧
    (parse fuzzy "tomorrow" ref = Except.error PyErr.typeError ∧
      parse fuzzy "tomorrow" ref ≠ Except.ok (some (ref + usPerDay))) := by
  have a1 : parse fuzzy "today" ref = Except.error PyErr.typeError :=
    parseCore_fuzzy_error fuzzy (normalizeChars "today".data) ref e1 h1
  have a2 : parse fuzzy "tomorrow" ref = Except.error PyErr.typeError :=
    parseCore_fuzzy_error fuzzy (normalizeChars "tomorrow".data) ref e2 h2
  exact ⟨⟨a1, by rw [a1]; simp⟩, ⟨a2, by rw [a2]; simp⟩⟩

theorem parse_today_tomorrow_raise_w :
    parse fuzzyAlwaysRaises "today" 0 = Except.error PyErr.typeError ∧
    parse fuzzyAlwaysRaises "tomorrow" 0 = Except.error PyErr.typeError :=
  ⟨(parse_today_tomorrow_raise fuzzyAlwaysRaises 0 PyErr.valueError
      PyErr.valueError rfl rfl).1.1,
   (parse_today_tomorrow_raise fuzzyAlwaysRaises 0 PyErr.valueError
      PyErr.valueError rfl rfl).2.1⟩

/-- C4: the spec describes the time-of-day pattern branch (hour/minute
replacement, am/pm normalisation, malformed captures treated as a
non-match).  That branch is unreachable: on an input such as "at 99:30",
which the fuzzy interpreter rejects (hour 99 is out of range) and which
the claim says should fall through the time patterns to `None`, the
`relative_patterns` construction above the branch raises `TypeError`
first. -/
theorem parse_timeofday_branch_unreachable (fuzzy : Fuzzy) (ref : Int)
    (e : PyErr)
    (h : fuzzy (normalizeChars "at 99:30".data) ref = Except.error e) :
    parse fuzzy "at 99:30" ref = Except.error PyErr.typeError ∧
    parse fuzzy "at 99:30" ref ≠ Except.ok none := by
  have h1 : parse fuzzy "at 99:30" ref = Except.error PyErr.typeError :=
    parseCore_fuzzy_error fuzzy (normalizeChars "at 99:30".data) ref e h
  exact ⟨h1, by rw [h1]; simp⟩

theorem parse_timeofday_branch_unreachable_w :
    parse fuzzyAlwaysRaises "at 99:30" 0 = Except.error PyErr.typeError ∧
    parse fuzzyAlwaysRaises "at 99:30" 0 ≠ Except.ok none :=
  parse_timeofday_branch_unreachable fuzzyAlwaysRaises 0 PyErr.valueError rfl

/-- C5: the spec says a weekday name resolves strictly into the future
(`ref + d` days, `1 ≤ d ≤ 7`), never the same day.  The code violates
this: when the fuzzy interpreter resolves "on monday" to the reference
instant itself (as `dateutil`'s on-or-after weekday rule does when `ref`
already falls on a Monday), the acceptance test
`parsed.date() >= reference_time.date()` accepts the same-day result and
`parse` returns `ref` unchanged; and when the fuzzy step raises instead,
the weekday roll-forward branch is never reached because the
`relative_patterns` construction raises `TypeError` first. -/
theorem parse_weekday_not_strictly_future (fuzzy : Fuzzy) (ref : Int) :
    (fuzzy (normalizeChars "on monday".data) ref = Except.ok ref →
      parse fuzzy "on monday" ref = Except.ok (some ref)) ∧
    (∀ e : PyErr, fuzzy (normalizeChars "on monday".data) ref = Except.error e →
      parse fuzzy "on monday" ref = Except.error PyErr.typeError) := by
  constructor
  · intro h
    exact parseCore_fuzzy_accept fuzzy (normalizeChars "on monday".data) ref ref h
      (Or.inr (le_refl (pyDate ref)))
  · intro e h
    exact parseCore_fuzzy_error fuzzy (normalizeChars "on monday".data) ref e h

theorem parse_weekday_not_strictly_future_w :
    parse fuzzyReturnsRef "on monday" 0 = Except.ok (some 0) ∧
    parse fuzzyAlwaysRaises "on monday" 0 = Except.error PyErr.typeError :=
  ⟨(parse_weekday_not_strictly_future fuzzyReturnsRef 0).1 rfl,
   (parse_weekday_not_strictly_future fuzzyAlwaysRaises 0).2 PyErr.valueError rfl⟩

/-- C6: the step-2 fuzzy interpretation is accepted (and returned
immediately) exactly when it lands at or after the reference instant's
calendar date, and a strictly earlier date falls through to the pattern
strategies.  The code's test `parsed > reference_time or
parsed.date() >= reference_time.date()` is equivalent to the date
comparison alone, because a strictly later instant never has an earlier
calendar date. -/
theorem fuzzy_acceptance_boundary (fuzzy : Fuzzy) (s : String)
    (ref parsed : Int)
    (h : fuzzy (normalizeChars s.data) ref = Except.ok parsed) :
    (parse fuzzy s ref = Except.ok (some parsed) ↔
      pyDate parsed ≥ pyDate ref) ∧
    (pyDate parsed < pyDate ref →
      parse fuzzy s ref = parseFallback ref (normalizeChars s.data)) := by
  constructor
  · constructor
    · intro hp
      by_contra hnot
      rw [not_le] at hnot
      have hr : parse fuzzy s ref = parseFallback ref (normalizeChars s.data) :=
        parseCore_fuzzy_reject fuzzy (normalizeChars s.data) ref parsed h hnot
      rw [hr, parseFallback_raises] at hp
      exact Except.noConfusion hp
    · intro hge
      exact parseCore_fuzzy_accept fuzzy (normalizeChars s.data) ref parsed h
        (Or.inr hge)
  · intro hlt
    exact parseCore_fuzzy_reject fuzzy (normalizeChars s.data) ref parsed h hlt

theorem fuzzy_acceptance_boundary_w :
    parse fuzzyReturnsFive "x" 0 = Except.ok (some 5) :=
  (fuzzy_acceptance_boundary fuzzyReturnsFive "x" 0 5 rfl).1.mpr (by decide)

/-- C7: `parse_duration` scans the four unit patterns (hours, minutes,
seconds, days) independently in that fixed order and accumulates every
matching pattern's contribution into one running total, and
`parse_duration("2 hours 30 minutes")` is exactly 9000 seconds. -/
theorem parse_duration_accumulates :
    (∀ s : String,
      parse_duration s = if durTotal s = 0 then none else some (durTotal s)) ∧
    parse_duration "2 hours 30 minutes" = some (9000 * usPerSecond) :=
  ⟨parse_duration_total, by decide⟩

/-- C8: `parse_duration` returns the `None` sentinel exactly when the
accumulated total of all four unit scans is zero — in particular on
"nonsense", where no pattern matches — and otherwise returns the nonzero
accumulated duration. -/
theorem parse_duration_none_iff_zero :
    (∀ s : String, durTotal s = 0 → parse_duration s = none) ∧
    (∀ s : String, durTotal s ≠ 0 → parse_duration s = some (durTotal s)) ∧
    parse_duration "nonsense" = none := by
  refine ⟨?_, ?_, by decide⟩
  · intro s h
    rw [parse_duration_total, if_pos h]
  · intro s h
    rw [parse_duration_total, if_neg h]

theorem parse_duration_none_iff_zero_w :
    parse_duration "nonsense" = none ∧
    parse_duration "90 mins" = some (durTotal "90 mins") :=
  ⟨parse_duration_none_iff_zero.1 "nonsense" (by decide),
   parse_duration_none_iff_zero.2.1 "90 mins" (by decide)⟩

/-- C9: `format_relative` returns the fixed phrase "in the past" whenever
the instant lies before the current wall-clock time, and "in a few
seconds" whenever it lies between 0 and 59 seconds after it. -/
theorem format_relative_first_buckets (dt now : Int) :
    (dt - now < 0 → format_relative dt now = "in the past") ∧
    (0 ≤ dt - now → dt - now < 60 * usPerSecond →
      format_relative dt now = "in a few seconds") := by
  constructor
  · intro h
    unfold format_relative
    rw [if_pos h]
  · intro h0 h60
    unfold format_relative
    rw [if_neg (not_lt.mpr h0), if_pos h60]

theorem format_relative_first_buckets_w :
    format_relative 0 5000000 = "in the past" ∧
    format_relative 30000000 0 = "in a few seconds" :=
  ⟨(format_relative_first_buckets 0 5000000).1 (by decide),
   (format_relative_first_buckets 30000000 0).2 (by decide) (by decide)⟩

/-- C10: `save_to_file` writes exactly the twelve enumerated configuration
keys, and the persisted dictionary is entirely independent of the
`weather_api_key` and `search_api_key` fields: API keys are never written
to the settings file. -/
theorem save_to_file_omits_api_keys (c : AssistantConfig) :
    (AssistantConfig.save_to_file c).map Prod.fst =
      ["name", "voice_name", "language", "use_voice", "use_gpu",
       "confidence_threshold", "enable_learning", "data_dir", "models_dir",
       "enable_reminders", "enable_calendar", "enable_weather"] ∧
    (∀ w k : String,
      AssistantConfig.save_to_file
        { c with weather_api_key := w, search_api_key := k } =
        AssistantConfig.save_to_file c) :=
  ⟨rfl, fun _ _ => rfl⟩
